import Mathlib

/-!
Shallow embedding of `pytest_rpc/__init__.py` (pytest-rpc 0.11.0).

The plugin is a set of pytest hook callbacks.  We model the pieces of the
pytest runtime the code touches: option lookups on the session config
(`getoption` / `getini`, both of which may raise `ValueError` for an unknown
name), the junitxml plugin's `_xml` config object, the process environment
(`os.environ` / `os.getenv`), test items with markers and a `user_properties`
list, and Python exceptions as explicit error values.  Hooks that mutate
external state (`add_global_property`, `user_properties.append`) are modelled
functionally: they return the list of properties they add, or the updated
item.
-/

/-- A Python value as far as this plugin observes values: absent (`None`),
a boolean (the `zigzag` / `qtest-project-id` options are declared with
`type=bool`), or a string (the `ci-environment` option, environment
variables). -/
inductive PyVal where
  | none
  | bool (b : Bool)
  | str (s : String)
deriving DecidableEq, Repr

/-- Python truthiness for the values above: `None` and `False` are falsy,
`True` is truthy, a string is truthy iff non-empty. -/
def PyVal.truthy : PyVal → Bool
  | PyVal.none => false
  | PyVal.bool b => b
  | PyVal.str s => !s.isEmpty

/-- The Python exceptions this module can raise or swallow. -/
inductive PyExc where
  | runtimeError (msg : String)
  | keyError (key : String)
  | nameError (name : String)
  | attributeError (msg : String)
  | valueError (msg : String)
deriving DecidableEq, Repr

/-- The junitxml plugin's config object (`session.config._xml`): it carries
the report logfile path.  `add_global_property` calls are modelled by the
list of pairs a hook adds. -/
structure XmlConfig where
  logfile : String
deriving DecidableEq, Repr

/-- The slice of `session.config` the plugin reads: whether the junitxml
plugin is registered (`pluginmanager.hasplugin`), the `_xml` attribute
(absent modelled as `Option.none`, matching `getattr(config, '_xml', None)`),
and the two option lookups, which either return a value or raise
`ValueError` for an unrecognised option name. -/
structure Config where
  hasJunitxml : Bool
  xml : Option XmlConfig
  getoption : String → Except PyExc PyVal
  getini : String → Except PyExc PyVal

/-- The pytest session together with the process environment
(`os.environ`): `env name = Option.none` models an unset variable. -/
structure Session where
  config : Config
  env : String → Option String

/-- `os.getenv(name, 'Unknown')`. -/
def os_getenv_default (env : String → Option String) (name : String)
    (default : String) : String :=
  match env name with
  | Option.none => default
  | Option.some v => v

/-- A pytest marker: the plugin only reads its positional `args`. -/
structure Marker where
  args : List PyVal
deriving DecidableEq, Repr

/-- A collected test item: `get_marker` looks a marker up by name
(`None` when the mark is absent) and `user_properties` is the list of
`(name, value)` pairs recorded into the JUnitXML `testcase` element. -/
structure Item where
  get_marker : String → Option Marker
  user_properties : List (String × PyVal)

/-- The `ASC_ENV_VARS` allowlist from the module globals. -/
def ASC_ENV_VARS : List String :=
  ["BUILD_URL",
   "BUILD_NUMBER",
   "RE_JOB_ACTION",
   "RE_JOB_IMAGE",
   "RE_JOB_SCENARIO",
   "RE_JOB_BRANCH",
   "RPC_RELEASE",
   "RPC_PRODUCT_RELEASE",
   "OS_ARTIFACT_SHA",
   "PYTHON_ARTIFACT_SHA",
   "APT_ARTIFACT_SHA",
   "REPO_URL",
   "JOB_NAME",
   "MOLECULE_TEST_REPO",
   "MOLECULE_SCENARIO_NAME",
   "MOLECULE_GIT_COMMIT"]

/-- The `MK8S_ENV_VARS` allowlist from the module globals. -/
def MK8S_ENV_VARS : List String :=
  ["BUILD_URL",
   "BUILD_NUMBER",
   "BUILD_ID",
   "NODE_NAME",
   "JOB_NAME",
   "BUILD_TAG",
   "JENKINS_URL",
   "EXECUTOR_NUMBER",
   "WORKSPACE",
   "CVS_BRANCH",
   "GIT_COMMIT",
   "GIT_URL",
   "GIT_BRANCH",
   "GIT_LOCAL_BRANCH",
   "GIT_AUTHOR_NAME",
   "GIT_AUTHOR_EMAIL",
   "BRANCH_NAME",
   "CHANGE_AUTHOR_DISPLAY_NAME",
   "CHANGE_AUTHOR",
   "CHANGE_BRANCH",
   "CHANGE_FORK",
   "CHANGE_ID",
   "CHANGE_TARGET",
   "CHANGE_TITLE",
   "CHANGE_URL",
   "JOB_URL",
   "NODE_LABELS",
   "NODE_NAME",
   "PWD",
   "STAGE_NAME"]

/-- `_get_option_of_highest_precedence(session, option_name)`: query
`session.config.getoption("--" + option_name)` and
`session.config.getini(option_name)`, turning a `ValueError` into `None`,
then return `cli_option or ini_option` (Python `or`: the CLI value when
truthy, otherwise the ini value as-is). -/
def _get_option_of_highest_precedence (session : Session)
    (option_name : String) : PyVal :=
  let cli_option :=
    match session.config.getoption ("--" ++ option_name) with
    | Except.ok v => v
    | Except.error _ => PyVal.none
  let ini_option :=
    match session.config.getini option_name with
    | Except.ok v => v
    | Except.error _ => PyVal.none
  if cli_option.truthy then cli_option else ini_option

/-- `_get_ci_environment(session)`: resolve the `ci-environment` option,
default `'asc'` when the resolved value is falsy, then require the result
to equal one of `['asc', 'mk8s']` or raise `RuntimeError`. -/
def _get_ci_environment (session : Session) : Except PyExc PyVal :=
  let highest_precedence :=
    let hp := _get_option_of_highest_precedence session "ci-environment"
    if hp.truthy then hp else PyVal.str "asc"
  let white_list := [PyVal.str "asc", PyVal.str "mk8s"]
  if !(white_list.any (fun x => x == highest_precedence)) then
    Except.error (PyExc.runtimeError
      "The value is not a valid value for the ci-environment configuration")
  else
    Except.ok highest_precedence

/-- `pytest_runtestloop(session)`: when the junitxml plugin is registered
and `config._xml` is present (truthy), resolve the ci-environment (which may
raise `RuntimeError`), then add the global property
`('ci-environment', value)` followed by one `(name, os.getenv(name,
'Unknown'))` pair per name in the allowlist selected by the value.  The
returned list is the sequence of `add_global_property` calls, in order. -/
def pytest_runtestloop (session : Session) :
    Except PyExc (List (String × PyVal)) :=
  if session.config.hasJunitxml then
    match session.config.xml with
    | Option.some _ =>
      match _get_ci_environment session with
      | Except.error e => Except.error e
      | Except.ok ci_environment =>
        Except.ok (("ci-environment", ci_environment) ::
          (if ci_environment == PyVal.str "asc" then
            ASC_ENV_VARS.map (fun env_var =>
              (env_var, PyVal.str (os_getenv_default session.env env_var "Unknown")))
          else if ci_environment == PyVal.str "mk8s" then
            MK8S_ENV_VARS.map (fun env_var =>
              (env_var, PyVal.str (os_getenv_default session.env env_var "Unknown")))
          else []))
    | Option.none => Except.ok []
  else Except.ok []

/-- The outcome of `pytest_sessionfinish` when it does not itself raise. -/
inductive SessionFinishResult where
  /-- The hook returned before reaching the `try` block: no upload attempt,
  `QTEST_API_TOKEN` never read. -/
  | noUpload
  /-- An exception was raised inside the `try` block and swallowed by the
  broad `except Exception` handler. -/
  | suppressed (e : PyExc)
  /-- The `try` block ran to completion (unreachable in this module: the
  unbound global `qtest_test_cycle` always raises first). -/
  | uploaded
deriving DecidableEq, Repr

/-- The body of the `try` block in `pytest_sessionfinish`: Python evaluates
the arguments of `ZigZag(junit_file_path, os.environ['QTEST_API_TOKEN'],
qtest_project_id, qtest_test_cycle, pprint_on_fail)` left to right, so the
subscript on `os.environ` raises `KeyError` when the variable is unset, and
otherwise the module-level name `qtest_test_cycle`, which is defined nowhere,
raises `NameError` before the constructor is ever entered. -/
def zigzag_upload_body (session : Session) : Except PyExc Unit :=
  match session.env "QTEST_API_TOKEN" with
  | Option.none => Except.error (PyExc.keyError "QTEST_API_TOKEN")
  | Option.some _ => Except.error (PyExc.nameError "qtest_test_cycle")

/-- `pytest_sessionfinish(session, exitstatus, terminalreporter)`: when the
junitxml plugin is registered, the `zigzag` option is truthy and the
`qtest-project-id` option is truthy, read
`getattr(session.config, '_xml', None).logfile` (an `AttributeError` on
`None` when `_xml` is absent); when that path is truthy, run the `try`
block, swallowing any `Exception` it raises. -/
def pytest_sessionfinish (session : Session) :
    Except PyExc SessionFinishResult :=
  if session.config.hasJunitxml then
    if (_get_option_of_highest_precedence session "zigzag").truthy then
      let qtest_project_id :=
        _get_option_of_highest_precedence session "qtest-project-id"
      if qtest_project_id.truthy then
        match session.config.xml with
        | Option.none =>
          Except.error (PyExc.attributeError
            "NoneType object has no attribute logfile")
        | Option.some xml =>
          if !xml.logfile.isEmpty then
            match zigzag_upload_body session with
            | Except.error _e => Except.ok (SessionFinishResult.suppressed _e)
            | Except.ok _ => Except.ok SessionFinishResult.uploaded
          else Except.ok SessionFinishResult.noUpload
      else Except.ok SessionFinishResult.noUpload
    else Except.ok SessionFinishResult.noUpload
  else Except.ok SessionFinishResult.noUpload

/-- The properties `_capture_marks` appends to one item: for each mark name
in `marks`, in order, when `item.get_marker(mark)` is not `None`, one
`(mark, arg)` pair per positional argument of the marker, in order. -/
def captured_props (marks : List String) (item : Item) :
    List (String × PyVal) :=
  marks.flatMap (fun mark =>
    match item.get_marker mark with
    | Option.none => []
    | Option.some marker => marker.args.map (fun arg => (mark, arg)))

/-- `_capture_marks(items, marks)`: for each item, for each mark in `marks`,
when the item carries the marker, append a `(mark, arg)` property for every
positional argument.  The in-place `user_properties.append` loop is modelled
by returning the updated items, in their original order. -/
def _capture_marks (items : List Item) (marks : List String) : List Item :=
  items.map (fun item =>
    { item with
      user_properties := item.user_properties ++ captured_props marks item })

/-- `pytest_collection_modifyitems(items)`: capture the `test_id` and `jira`
marks on every collected item. -/
def pytest_collection_modifyitems (items : List Item) : List Item :=
  _capture_marks items ["test_id", "jira"]

/-- The fields of `datetime.utcnow()` the plugin formats. -/
structure DateTime where
  year : Nat
  month : Nat
  day : Nat
  hour : Nat
  minute : Nat
  second : Nat
deriving DecidableEq, Repr

/-- The decimal digit character for `n % 10`. -/
def digitChar (n : Nat) : Char :=
  match n % 10 with
  | 0 => Char.mk 48 (by decide)
  | 1 => Char.mk 49 (by decide)
  | 2 => Char.mk 50 (by decide)
  | 3 => Char.mk 51 (by decide)
  | 4 => Char.mk 52 (by decide)
  | 5 => Char.mk 53 (by decide)
  | 6 => Char.mk 54 (by decide)
  | 7 => Char.mk 55 (by decide)
  | 8 => Char.mk 56 (by decide)
  | _ => Char.mk 57 (by decide)

/-- `datetime.strftime(t, %Y-%m-%dT%H:%M:%SZ)` as CPython prints it for the
field ranges `datetime.utcnow()` can produce (year below 10000, the other
fields two digits wide): each field zero-padded to its width. -/
def strftime_utc (t : DateTime) : String :=
  String.mk
    [digitChar (t.year / 1000), digitChar (t.year / 100),
     digitChar (t.year / 10), digitChar t.year, Char.mk 45 (by decide),
     digitChar (t.month / 10), digitChar t.month, Char.mk 45 (by decide),
     digitChar (t.day / 10), digitChar t.day, Char.mk 84 (by decide),
     digitChar (t.hour / 10), digitChar t.hour, Char.mk 58 (by decide),
     digitChar (t.minute / 10), digitChar t.minute, Char.mk 58 (by decide),
     digitChar (t.second / 10), digitChar t.second, Char.mk 90 (by decide)]

/-- Whether a string has the shape `%Y-%m-%dT%H:%M:%SZ`: exactly twenty
characters, digits everywhere except the fixed separators
`-`, `-`, `T`, `:`, `:` and the trailing `Z`. -/
def matchesTimestampFormat (s : String) : Bool :=
  match s.toList with
  | [y1, y2, y3, y4, c1, m1, m2, c2, d1, d2, c3,
     h1, h2, c4, n1, n2, c5, s1, s2, c6] =>
    y1.isDigit && y2.isDigit && y3.isDigit && y4.isDigit &&
    m1.isDigit && m2.isDigit && d1.isDigit && d2.isDigit &&
    h1.isDigit && h2.isDigit && n1.isDigit && n2.isDigit &&
    s1.isDigit && s2.isDigit &&
    c1 == Char.mk 45 (by decide) && c2 == Char.mk 45 (by decide) &&
    c3 == Char.mk 84 (by decide) && c4 == Char.mk 58 (by decide) &&
    c5 == Char.mk 58 (by decide) && c6 == Char.mk 90 (by decide)
  | _ => false

/-- `pytest_runtest_setup(item)`: append `('start_time', now)` with `now`
the formatted `datetime.utcnow()`, passed here as the hook's clock reading. -/
def pytest_runtest_setup (now : DateTime) (item : Item) : Item :=
  { item with
    user_properties :=
      item.user_properties ++ [("start_time", PyVal.str (strftime_utc now))] }

/-- `pytest_runtest_teardown(item)`: append `('end_time', now)` with `now`
the formatted `datetime.utcnow()`, passed here as the hook's clock reading. -/
def pytest_runtest_teardown (now : DateTime) (item : Item) : Item :=
  { item with
    user_properties :=
      item.user_properties ++ [("end_time", PyVal.str (strftime_utc now))] }

/-- A `pkg_resources.resource_stream(package, resource_name)` result: a
readable byte stream onto the named bundled resource. -/
inductive ResourceStream where
  | stream (package : String) (resource_name : String)
deriving DecidableEq, Repr

/-- Models `pkg_resources.resource_stream`: open a readable stream for a
resource bundled with the named package. -/
def resource_stream (package : String) (resource_name : String) :
    ResourceStream :=
  ResourceStream.stream package resource_name

/-- `get_xsd(ci_environment)` (the Python default argument is `'asc'`):
a stream on `data/molecule_junit.xsd` for `'asc'`, on `data/mk8s_junit.xsd`
for `'mk8s'`, otherwise a `RuntimeError`. -/
def get_xsd (ci_environment : String) : Except PyExc ResourceStream :=
  if ci_environment == "asc" then
    Except.ok (resource_stream "pytest_rpc" "data/molecule_junit.xsd")
  else if ci_environment == "mk8s" then
    Except.ok (resource_stream "pytest_rpc" "data/mk8s_junit.xsd")
  else
    Except.error (PyExc.runtimeError
      ("Unknown ci-environment " ++ ci_environment))

/-- The start of a pytest run in host-runner hook order: collection (and
`pytest_collection_modifyitems`) happens first, then `pytest_runtestloop`
runs the collected tests.  Returns the modified items together with the
global properties the run-test loop added, or the exception that aborted
the loop. -/
def run_collect_then_loop (session : Session) (items : List Item) :
    Except PyExc (List Item × List (String × PyVal)) :=
  let collected := pytest_collection_modifyitems items
  match pytest_runtestloop session with
  | Except.error e => Except.error e
  | Except.ok props => Except.ok (collected, props)

/-- A session with no CLI options (every `getoption` raises `ValueError`),
ini lookups answering the empty string (the `addini` default), the junitxml
plugin active with a report file, and `BUILD_URL` the only variable set in
the environment. -/
def sessionDefault : Session :=
  { config :=
      { hasJunitxml := true
        xml := Option.some { logfile := "report.xml" }
        getoption := fun _ => Except.error (PyExc.valueError "unrecognised option")
        getini := fun _ => Except.ok (PyVal.str "") }
    env := fun name =>
      if name == "BUILD_URL" then Option.some "https://ci.example/build/1"
      else Option.none }

/-- A session whose CLI sets `--ci-environment foo` (an invalid value) and
where the junitxml report is NOT active. -/
def sessionBadCi : Session :=
  { config :=
      { hasJunitxml := false
        xml := Option.none
        getoption := fun name =>
          if name == "--ci-environment" then Except.ok (PyVal.str "foo")
          else Except.error (PyExc.valueError "unrecognised option")
        getini := fun _ => Except.error (PyExc.valueError "unrecognised ini") }
    env := fun _ => Option.none }

/-- A session whose CLI sets `--ci-environment foo` (an invalid value) with
the junitxml report active. -/
def sessionBadCiXml : Session :=
  { config :=
      { hasJunitxml := true
        xml := Option.some { logfile := "report.xml" }
        getoption := fun name =>
          if name == "--ci-environment" then Except.ok (PyVal.str "foo")
          else Except.error (PyExc.valueError "unrecognised option")
        getini := fun _ => Except.error (PyExc.valueError "unrecognised ini") }
    env := fun _ => Option.none }

/-- A session with upload fully enabled (`--zigzag`, `--qtest-project-id`,
junitxml report at `report.xml`) and `QTEST_API_TOKEN` unset. -/
def sessionUpload : Session :=
  { config :=
      { hasJunitxml := true
        xml := Option.some { logfile := "report.xml" }
        getoption := fun name =>
          if name == "--zigzag" then Except.ok (PyVal.bool true)
          else if name == "--qtest-project-id" then Except.ok (PyVal.bool true)
          else Except.error (PyExc.valueError "unrecognised option")
        getini := fun _ => Except.error (PyExc.valueError "unrecognised ini") }
    env := fun _ => Option.none }

/-- Like `sessionUpload` but with `QTEST_API_TOKEN` set, so the `try` block
reaches the unbound global `qtest_test_cycle`. -/
def sessionUploadToken : Session :=
  { config :=
      { hasJunitxml := true
        xml := Option.some { logfile := "report.xml" }
        getoption := fun name =>
          if name == "--zigzag" then Except.ok (PyVal.bool true)
          else if name == "--qtest-project-id" then Except.ok (PyVal.bool true)
          else Except.error (PyExc.valueError "unrecognised option")
        getini := fun _ => Except.error (PyExc.valueError "unrecognised ini") }
    env := fun name =>
      if name == "QTEST_API_TOKEN" then Option.some "secret-token"
      else Option.none }

/-- A session with upload options enabled and the junitxml plugin
registered, but no `_xml` attribute on the config (pytest was run without
a junitxml report path). -/
def sessionNoXml : Session :=
  { config :=
      { hasJunitxml := true
        xml := Option.none
        getoption := fun name =>
          if name == "--zigzag" then Except.ok (PyVal.bool true)
          else if name == "--qtest-project-id" then Except.ok (PyVal.bool true)
          else Except.error (PyExc.valueError "unrecognised option")
        getini := fun _ => Except.error (PyExc.valueError "unrecognised ini") }
    env := fun _ => Option.none }

/-- A marker `jira("ABC-123")`. -/
def jiraMarker : Marker := { args := [PyVal.str "ABC-123"] }

/-- A collected item marked `jira("ABC-123")` with no prior properties. -/
def itemJira : Item :=
  { get_marker := fun mark =>
      if mark == "jira" then Option.some jiraMarker else Option.none
    user_properties := [] }

/-- Field ranges `datetime.utcnow()` guarantees, under which
`strftime_utc` agrees with CPython's `%Y-%m-%dT%H:%M:%SZ` output. -/
def DateTime.utcRange (t : DateTime) : Prop :=
  t.year < 10000 ∧ t.month < 100 ∧ t.day < 100 ∧
    t.hour < 100 ∧ t.minute < 100 ∧ t.second < 100

instance (t : DateTime) : Decidable t.utcRange := by
  unfold DateTime.utcRange
  infer_instance

/-- `digitChar` always yields a decimal digit character. -/
theorem digitChar_isDigit (n : Nat) : (digitChar n).isDigit = true := by
  unfold digitChar
  split <;> decide

/-- The output of `strftime_utc` always has the `%Y-%m-%dT%H:%M:%SZ` shape. -/
theorem strftime_utc_matches (t : DateTime) :
    matchesTimestampFormat (strftime_utc t) = true := by
  simp [matchesTimestampFormat, strftime_utc, String.toList, digitChar_isDigit]

/-- Indexing the two elements appended at the end of a list. -/
theorem getElem_append_pair {α : Type} (l : List α) (a b : α) :
    (l ++ [a, b])[l.length]? = Option.some a ∧
      (l ++ [a, b])[l.length + 1]? = Option.some b := by
  induction l with
  | nil => exact ⟨rfl, rfl⟩
  | cons x xs ih => simpa using ih

/-- Claim C7: `get_xsd` returns a stream on the bundled resource
`data/molecule_junit.xsd` for `asc` and on the distinct resource
`data/mk8s_junit.xsd` for `mk8s`, and raises a `RuntimeError` for every
other argument. -/
theorem get_xsd_spec :
    get_xsd "asc" =
      Except.ok (ResourceStream.stream "pytest_rpc" "data/molecule_junit.xsd") ∧
    get_xsd "mk8s" =
      Except.ok (ResourceStream.stream "pytest_rpc" "data/mk8s_junit.xsd") ∧
    ResourceStream.stream "pytest_rpc" "data/molecule_junit.xsd" ≠
      ResourceStream.stream "pytest_rpc" "data/mk8s_junit.xsd" ∧
    ∀ s : String, s ≠ "asc" → s ≠ "mk8s" →
      get_xsd s = Except.error
        (PyExc.runtimeError ("Unknown ci-environment " ++ s)) := by
  refine ⟨rfl, rfl, by decide, ?_⟩
  intro s h1 h2
  simp [get_xsd, h1, h2]

/-- Witness for C7 at the concrete invalid argument `foo`. -/
theorem get_xsd_spec_witness :
    get_xsd "foo" = Except.error
      (PyExc.runtimeError ("Unknown ci-environment " ++ "foo")) :=
  get_xsd_spec.2.2.2 "foo" (by decide) (by decide)

/-- Claim C8: when neither the CLI option nor the ini option yields a
truthy `ci-environment` value, the resolver returns the default `asc`;
and every value the resolver accepts is `asc` or `mk8s`. -/
theorem ci_environment_default_whitelist (s : Session) :
    ((_get_option_of_highest_precedence s "ci-environment").truthy = false →
      _get_ci_environment s = Except.ok (PyVal.str "asc")) ∧
    ∀ v, _get_ci_environment s = Except.ok v →
      v = PyVal.str "asc" ∨ v = PyVal.str "mk8s" := by
  constructor
  · intro h
    simp [_get_ci_environment, h]
  · intro v hv
    rcases hw : _get_option_of_highest_precedence s "ci-environment" with _ | b | sv
    · simp [_get_ci_environment, hw, PyVal.truthy] at hv
      exact Or.inl hv.symm
    · cases b
      · simp [_get_ci_environment, hw, PyVal.truthy] at hv
        exact Or.inl hv.symm
      · simp [_get_ci_environment, hw, PyVal.truthy] at hv
    · by_cases hemp : sv.isEmpty
      · simp [_get_ci_environment, hw, PyVal.truthy, hemp] at hv
        exact Or.inl hv.symm
      · by_cases hasc : sv = "asc"
        · subst hasc
          simp [_get_ci_environment, hw, PyVal.truthy, hemp] at hv
          exact Or.inl hv.symm
        · by_cases hmk : sv = "mk8s"
          · subst hmk
            simp [_get_ci_environment, hw, PyVal.truthy, hemp] at hv
            exact Or.inr hv.symm
          · have hasc2 : ¬"asc" = sv := fun h => hasc h.symm
            have hmk2 : ¬"mk8s" = sv := fun h => hmk h.symm
            simp [_get_ci_environment, hw, PyVal.truthy, hemp, hasc2, hmk2] at hv

/-- Witness for C8: in `sessionDefault` the CLI lookup raises and the ini
lookup answers the empty string, so the resolved value is `asc`. -/
theorem ci_environment_default_whitelist_witness :
    _get_ci_environment sessionDefault = Except.ok (PyVal.str "asc") :=
  (ci_environment_default_whitelist sessionDefault).1 rfl

/-- Counterexample to claim C1 as stated: `sessionBadCi` configures the
invalid value `foo` for `ci-environment`, yet with the junitxml report not
active the whole start of the run (collection followed by the run-test
loop) completes without raising, because `_get_ci_environment` is only ever
consulted inside `pytest_runtestloop` and only when `config._xml` is
present. -/
theorem bad_ci_environment_no_raise :
    _get_option_of_highest_precedence sessionBadCi "ci-environment" =
      PyVal.str "foo" ∧
    _get_ci_environment sessionBadCi =
      Except.error (PyExc.runtimeError
        "The value is not a valid value for the ci-environment configuration") ∧
    run_collect_then_loop sessionBadCi [] = Except.ok ([], []) :=
  ⟨rfl, rfl, rfl⟩

/-- Claim C1 (amended): when the junitxml report is active, a run whose
resolved `ci-environment` is invalid raises the `RuntimeError` in
`pytest_runtestloop` — after collection, before any test executes; without
an active junitxml report the invalid value goes undetected. -/
theorem bad_ci_environment_raises_in_runtestloop (s : Session)
    (x : XmlConfig) (e : PyExc)
    (hjx : s.config.hasJunitxml = true)
    (hxml : s.config.xml = Option.some x)
    (hci : _get_ci_environment s = Except.error e) :
    pytest_runtestloop s = Except.error e ∧
    ∀ items, run_collect_then_loop s items = Except.error e := by
  have hloop : pytest_runtestloop s = Except.error e := by
    simp [pytest_runtestloop, hjx, hxml, hci]
  exact ⟨hloop, fun items => by simp [run_collect_then_loop, hloop]⟩

/-- Witness for the amended C1: `sessionBadCiXml` has the junitxml report
active and `--ci-environment foo`, and the loop raises the RuntimeError. -/
theorem bad_ci_environment_raises_witness :
    pytest_runtestloop sessionBadCiXml =
      Except.error (PyExc.runtimeError
        "The value is not a valid value for the ci-environment configuration") ∧
    ∀ items, run_collect_then_loop sessionBadCiXml items =
      Except.error (PyExc.runtimeError
        "The value is not a valid value for the ci-environment configuration") :=
  bad_ci_environment_raises_in_runtestloop sessionBadCiXml
    { logfile := "report.xml" } _ rfl rfl rfl

/-- Claim C3: with the junitxml report active and the ci-environment
resolved to `asc`, the global properties `pytest_runtestloop` records are
exactly `('ci-environment', 'asc')` followed by one pair per name in
`ASC_ENV_VARS`, valued by the environment variable when set and by the
literal `Unknown` when unset — and nothing else. -/
theorem runtestloop_asc_global_properties (s : Session) (x : XmlConfig)
    (hjx : s.config.hasJunitxml = true)
    (hxml : s.config.xml = Option.some x)
    (hci : _get_ci_environment s = Except.ok (PyVal.str "asc")) :
    pytest_runtestloop s = Except.ok
      (("ci-environment", PyVal.str "asc") ::
        ASC_ENV_VARS.map (fun env_var =>
          (env_var,
            PyVal.str (os_getenv_default s.env env_var "Unknown")))) := by
  simp [pytest_runtestloop, hjx, hxml, hci]

/-- Witness for C3 at `sessionDefault`, where only `BUILD_URL` is set. -/
theorem runtestloop_asc_global_properties_witness :
    pytest_runtestloop sessionDefault = Except.ok
      (("ci-environment", PyVal.str "asc") ::
        ASC_ENV_VARS.map (fun env_var =>
          (env_var,
            PyVal.str (os_getenv_default sessionDefault.env env_var
              "Unknown")))) :=
  runtestloop_asc_global_properties sessionDefault
    { logfile := "report.xml" } rfl rfl rfl

/-- Counterexample to claim C2 as stated: in `sessionUpload` the upload is
fully enabled and `QTEST_API_TOKEN` is unset, yet `pytest_sessionfinish`
does NOT fail — the `KeyError` from `os.environ` is raised inside the `try`
block and swallowed by the broad `except Exception` handler, so the hook
returns normally. -/
theorem missing_token_is_swallowed :
    sessionUpload.env "QTEST_API_TOKEN" = Option.none ∧
    (_get_option_of_highest_precedence sessionUpload "zigzag").truthy = true ∧
    pytest_sessionfinish sessionUpload =
      Except.ok (SessionFinishResult.suppressed
        (PyExc.keyError "QTEST_API_TOKEN")) :=
  ⟨rfl, rfl, rfl⟩

/-- Claim C2 (amended): when upload is enabled, the other upload conditions
hold, and `QTEST_API_TOKEN` is unset, the missing-variable `KeyError` is
raised inside the `try` block and suppressed; the hook returns normally
without uploading. -/
theorem missing_token_suppressed (s : Session) (x : XmlConfig)
    (hjx : s.config.hasJunitxml = true)
    (hz : (_get_option_of_highest_precedence s "zigzag").truthy = true)
    (hp : (_get_option_of_highest_precedence s "qtest-project-id").truthy = true)
    (hxml : s.config.xml = Option.some x)
    (hlog : x.logfile.isEmpty = false)
    (htok : s.env "QTEST_API_TOKEN" = Option.none) :
    pytest_sessionfinish s =
      Except.ok (SessionFinishResult.suppressed
        (PyExc.keyError "QTEST_API_TOKEN")) := by
  simp [pytest_sessionfinish, hjx, hz, hp, hxml, hlog,
    zigzag_upload_body, htok]

/-- Witness for the amended C2 at `sessionUpload`. -/
theorem missing_token_suppressed_witness :
    pytest_sessionfinish sessionUpload =
      Except.ok (SessionFinishResult.suppressed
        (PyExc.keyError "QTEST_API_TOKEN")) :=
  missing_token_suppressed sessionUpload { logfile := "report.xml" }
    rfl rfl rfl rfl rfl rfl

/-- Claim C4: every exception raised inside the `try` block of
`pytest_sessionfinish` (argument evaluation for the uploader constructor —
including the `KeyError` on the token and the `NameError` on the two
undefined constructor arguments — or the constructor and upload call
themselves) is suppressed, and the hook returns normally as if no upload
was attempted. -/
theorem upload_exceptions_suppressed (s : Session) (x : XmlConfig) (e : PyExc)
    (hjx : s.config.hasJunitxml = true)
    (hz : (_get_option_of_highest_precedence s "zigzag").truthy = true)
    (hp : (_get_option_of_highest_precedence s "qtest-project-id").truthy = true)
    (hxml : s.config.xml = Option.some x)
    (hlog : x.logfile.isEmpty = false)
    (he : zigzag_upload_body s = Except.error e) :
    pytest_sessionfinish s =
      Except.ok (SessionFinishResult.suppressed e) := by
  simp [pytest_sessionfinish, hjx, hz, hp, hxml, hlog, he]

/-- Witness for C4 at `sessionUploadToken`: the token is set, so the
`NameError` on the undefined `qtest_test_cycle` is the raised exception,
and it is suppressed. -/
theorem upload_exceptions_suppressed_witness :
    pytest_sessionfinish sessionUploadToken =
      Except.ok (SessionFinishResult.suppressed
        (PyExc.nameError "qtest_test_cycle")) :=
  upload_exceptions_suppressed sessionUploadToken
    { logfile := "report.xml" } (PyExc.nameError "qtest_test_cycle")
    rfl rfl rfl rfl rfl rfl

/-- The `try` block of `pytest_sessionfinish` always raises: either the
`KeyError` on the unset token or the `NameError` on the undefined
`qtest_test_cycle`. -/
theorem zigzag_upload_body_always_errors (s : Session) :
    ∃ e, zigzag_upload_body s = Except.error e := by
  unfold zigzag_upload_body
  cases s.env "QTEST_API_TOKEN" <;> exact ⟨_, rfl⟩

/-- Counterexample to claim C9 as stated: in `sessionNoXml` the junitxml
plugin is registered and both options are truthy, but the config has no
`_xml` attribute, so there is no report logfile; instead of returning, the
hook raises `AttributeError` on
`getattr(session.config, '_xml', None).logfile`.  (It still neither
constructs the uploader nor reads `QTEST_API_TOKEN`.) -/
theorem sessionfinish_no_xml_raises :
    sessionNoXml.config.hasJunitxml = true ∧
    (_get_option_of_highest_precedence sessionNoXml "zigzag").truthy = true ∧
    (_get_option_of_highest_precedence sessionNoXml
      "qtest-project-id").truthy = true ∧
    sessionNoXml.config.xml = Option.none ∧
    pytest_sessionfinish sessionNoXml =
      Except.error (PyExc.attributeError
        "NoneType object has no attribute logfile") :=
  ⟨rfl, rfl, rfl, rfl, rfl⟩

/-- Claim C9 (amended): `pytest_sessionfinish` reaches the upload attempt
(and with it the read of `QTEST_API_TOKEN`) exactly when the junitxml
plugin is registered, the `zigzag` and `qtest-project-id` options are
truthy, the `_xml` config is present and its logfile path is non-empty; if
the plugin is missing or either option is falsy or the logfile is empty the
hook returns normally having done nothing, while in the remaining case —
`_xml` absent with the first three conditions holding — it raises
`AttributeError` (still without reading the token). -/
theorem sessionfinish_upload_gating (s : Session) :
    (s.config.hasJunitxml = false →
      pytest_sessionfinish s = Except.ok SessionFinishResult.noUpload) ∧
    ((_get_option_of_highest_precedence s "zigzag").truthy = false →
      pytest_sessionfinish s = Except.ok SessionFinishResult.noUpload) ∧
    ((_get_option_of_highest_precedence s "qtest-project-id").truthy = false →
      pytest_sessionfinish s = Except.ok SessionFinishResult.noUpload) ∧
    (s.config.hasJunitxml = true →
      (_get_option_of_highest_precedence s "zigzag").truthy = true →
      (_get_option_of_highest_precedence s "qtest-project-id").truthy = true →
      s.config.xml = Option.none →
      pytest_sessionfinish s = Except.error (PyExc.attributeError
        "NoneType object has no attribute logfile")) ∧
    (∀ x : XmlConfig, s.config.xml = Option.some x →
      x.logfile.isEmpty = true →
      pytest_sessionfinish s = Except.ok SessionFinishResult.noUpload) ∧
    ∀ e, pytest_sessionfinish s =
        Except.ok (SessionFinishResult.suppressed e) →
      s.config.hasJunitxml = true ∧
      (_get_option_of_highest_precedence s "zigzag").truthy = true ∧
      (_get_option_of_highest_precedence s "qtest-project-id").truthy = true ∧
      ∃ x, s.config.xml = Option.some x ∧ x.logfile.isEmpty = false ∧
        zigzag_upload_body s = Except.error e := by
  refine ⟨?_, ?_, ?_, ?_, ?_, ?_⟩
  · intro h
    simp [pytest_sessionfinish, h]
  · intro h
    simp [pytest_sessionfinish, h]
  · intro h
    simp [pytest_sessionfinish, h]
  · intro h1 h2 h3 h4
    simp [pytest_sessionfinish, h1, h2, h3, h4]
  · intro x hx hlog
    simp [pytest_sessionfinish, hx, hlog]
  · intro e h
    by_cases hjx : s.config.hasJunitxml
    · by_cases hz : (_get_option_of_highest_precedence s "zigzag").truthy
      · by_cases hp :
            (_get_option_of_highest_precedence s "qtest-project-id").truthy
        · cases hxml : s.config.xml with
          | none => simp [pytest_sessionfinish, hjx, hz, hp, hxml] at h
          | some x =>
            by_cases hlog : x.logfile.isEmpty
            · simp [pytest_sessionfinish, hjx, hz, hp, hxml, hlog] at h
            · cases hb : zigzag_upload_body s with
              | error e2 =>
                have he : e2 = e := by
                  simp [pytest_sessionfinish, hjx, hz, hp, hxml, hlog, hb] at h
                  exact h
                subst he
                exact ⟨hjx, hz, hp, x, rfl, by simpa using hlog, rfl⟩
              | ok u =>
                rcases zigzag_upload_body_always_errors s with ⟨e3, he3⟩
                rw [hb] at he3
                cases he3
        · simp only [Bool.not_eq_true] at hp
          simp [pytest_sessionfinish, hp] at h
      · simp only [Bool.not_eq_true] at hz
        simp [pytest_sessionfinish, hz] at h
    · simp only [Bool.not_eq_true] at hjx
      simp [pytest_sessionfinish, hjx] at h

/-- Witness for the amended C9: in `sessionDefault` the `zigzag` option is
falsy, so the hook returns normally with no upload attempt. -/
theorem sessionfinish_upload_gating_witness :
    pytest_sessionfinish sessionDefault =
      Except.ok SessionFinishResult.noUpload :=
  (sessionfinish_upload_gating sessionDefault).2.1 rfl

/-- Claim C5: for every collected item carrying one of the captured marks
(`test_id`, `jira`), `pytest_collection_modifyitems` leaves the item in
place (same position, same markers) and its resulting `user_properties`
contain one `(mark, arg)` pair for each argument of that marker. -/
theorem collection_captures_marker_args (items : List Item) (i : Nat)
    (item : Item) (marker : Marker) (mark : String) (arg : PyVal)
    (hi : items[i]? = Option.some item)
    (hmark : mark ∈ ["test_id", "jira"])
    (hm : item.get_marker mark = Option.some marker)
    (ha : arg ∈ marker.args) :
    ∃ item2, (pytest_collection_modifyitems items)[i]? = Option.some item2 ∧
      item2.get_marker = item.get_marker ∧
      (mark, arg) ∈ item2.user_properties := by
  refine ⟨{ item with
      user_properties := item.user_properties ++
        captured_props ["test_id", "jira"] item }, ?_, rfl, ?_⟩
  · simp [pytest_collection_modifyitems, _capture_marks, hi]
  · refine List.mem_append_right _ ?_
    refine List.mem_flatMap.mpr ⟨mark, hmark, ?_⟩
    rw [hm]
    exact List.mem_map_of_mem _ ha

/-- Witness for C5: the item marked `jira("ABC-123")` ends up with the
property `("jira", "ABC-123")`. -/
theorem collection_captures_marker_args_witness :
    ∃ item2,
      (pytest_collection_modifyitems [itemJira])[0]? = Option.some item2 ∧
      item2.get_marker = itemJira.get_marker ∧
      ("jira", PyVal.str "ABC-123") ∈ item2.user_properties :=
  collection_captures_marker_args [itemJira] 0 itemJira jiraMarker
    "jira" (PyVal.str "ABC-123") rfl (by decide) rfl (by decide)

/-- Claim C10: `pytest_collection_modifyitems` never removes, replaces or
reorders items: the result has the same length, and the item at every
position keeps its markers and its original `user_properties` as a prefix,
only extended by an appended suffix. -/
theorem collection_modifyitems_frame (items : List Item) (i : Nat)
    (item : Item) (hi : items[i]? = Option.some item) :
    (pytest_collection_modifyitems items).length = items.length ∧
    ∃ suffix, (pytest_collection_modifyitems items)[i]? = Option.some
      { item with user_properties := item.user_properties ++ suffix } := by
  constructor
  · simp [pytest_collection_modifyitems, _capture_marks]
  · exact ⟨captured_props ["test_id", "jira"] item,
      by simp [pytest_collection_modifyitems, _capture_marks, hi]⟩

/-- Witness for C10 at the one-item collection `[itemJira]`. -/
theorem collection_modifyitems_frame_witness :
    (pytest_collection_modifyitems [itemJira]).length = [itemJira].length ∧
    ∃ suffix, (pytest_collection_modifyitems [itemJira])[0]? = Option.some
      { itemJira with
        user_properties := itemJira.user_properties ++ suffix } :=
  collection_modifyitems_frame [itemJira] 0 itemJira rfl

/-- Claim C6: after a test item passes through `pytest_runtest_setup` and
then `pytest_runtest_teardown`, the `('start_time', _)` property sits at an
earlier position of `user_properties` than the `('end_time', _)` property,
and both values have the `%Y-%m-%dT%H:%M:%SZ` shape.  The clock readings
are constrained to the ranges `datetime.utcnow()` can produce. -/
theorem start_time_before_end_time (item : Item) (t1 t2 : DateTime)
    (h1 : t1.utcRange) (h2 : t2.utcRange) :
    ∃ i j : Nat, i < j ∧
      (pytest_runtest_teardown t2
        (pytest_runtest_setup t1 item)).user_properties[i]? =
        Option.some ("start_time", PyVal.str (strftime_utc t1)) ∧
      (pytest_runtest_teardown t2
        (pytest_runtest_setup t1 item)).user_properties[j]? =
        Option.some ("end_time", PyVal.str (strftime_utc t2)) ∧
      matchesTimestampFormat (strftime_utc t1) = true ∧
      matchesTimestampFormat (strftime_utc t2) = true := by
  refine ⟨item.user_properties.length, item.user_properties.length + 1,
    Nat.lt_succ_self _, ?_, ?_, strftime_utc_matches t1, strftime_utc_matches t2⟩
  · have h := (getElem_append_pair item.user_properties
      ("start_time", PyVal.str (strftime_utc t1))
      ("end_time", PyVal.str (strftime_utc t2))).1
    simpa [pytest_runtest_setup, pytest_runtest_teardown] using h
  · have h := (getElem_append_pair item.user_properties
      ("start_time", PyVal.str (strftime_utc t1))
      ("end_time", PyVal.str (strftime_utc t2))).2
    simpa [pytest_runtest_setup, pytest_runtest_teardown] using h

/-- Witness for C6 at a concrete item and two concrete clock readings. -/
theorem start_time_before_end_time_witness :
    ∃ i j : Nat, i < j ∧
      (pytest_runtest_teardown
        { year := 2018, month := 6, day := 14,
          hour := 12, minute := 30, second := 2 }
        (pytest_runtest_setup
          { year := 2018, month := 6, day := 14,
            hour := 12, minute := 30, second := 1 }
          itemJira)).user_properties[i]? =
        Option.some ("start_time", PyVal.str (strftime_utc
          { year := 2018, month := 6, day := 14,
            hour := 12, minute := 30, second := 1 })) ∧
      (pytest_runtest_teardown
        { year := 2018, month := 6, day := 14,
          hour := 12, minute := 30, second := 2 }
        (pytest_runtest_setup
          { year := 2018, month := 6, day := 14,
            hour := 12, minute := 30, second := 1 }
          itemJira)).user_properties[j]? =
        Option.some ("end_time", PyVal.str (strftime_utc
          { year := 2018, month := 6, day := 14,
            hour := 12, minute := 30, second := 2 })) ∧
      matchesTimestampFormat (strftime_utc
        { year := 2018, month := 6, day := 14,
          hour := 12, minute := 30, second := 1 }) = true ∧
      matchesTimestampFormat (strftime_utc
        { year := 2018, month := 6, day := 14,
          hour := 12, minute := 30, second := 2 }) = true :=
  start_time_before_end_time itemJira
    { year := 2018, month := 6, day := 14,
      hour := 12, minute := 30, second := 1 }
    { year := 2018, month := 6, day := 14,
      hour := 12, minute := 30, second := 2 }
    (by decide) (by decide)
